import Mathlib

/-!
Verification of `pyzoo/zoo/pipeline/api/keras2/layers/convolutional.py`.

The file under scrutiny defines four declarative Keras2 layer wrappers
(`Conv1D`, `Cropping1D`, `ZeroPadding1D`, `ZeroPadding2D`), each of whose
`__init__` only normalizes its arguments and delegates to the base
collaborator `ZooKeras2Layer.__init__` (a single `super().__init__` call).

We embed the Python values these constructors handle as an inductive
`PyVal`, the relevant Python primitives (truthiness, `list(...)`, `len`,
subscripting, `isinstance(x, int)`) as functions on `PyVal`, and each
constructor as a function from its arguments to the trace of collaborator
invocations it performs (`Except PyErr (List Call)`); a raised Python
exception is an `Except.error`.
-/

/-- A Python runtime error, as raised by the primitives this file uses. -/
inductive PyErr where
  | typeError (msg : String) : PyErr
  | indexError (msg : String) : PyErr
deriving DecidableEq

/-- The Python values that can flow through the constructors of the file:
`None`, `int`, `bool`, `str`, tuples and lists. -/
inductive PyVal where
  | none : PyVal
  | int (n : Int) : PyVal
  | bool (b : Bool) : PyVal
  | str (s : String) : PyVal
  | tuple (xs : List PyVal) : PyVal
  | list (xs : List PyVal) : PyVal

/-- Python truthiness: `None` and `False` are falsy, numbers are truthy iff
nonzero, strings and sequences are truthy iff nonempty. -/
def pyTruthy : PyVal → Bool
  | .none => false
  | .int n => n ≠ 0
  | .bool b => b
  | .str s => s ≠ ""
  | .tuple xs => ¬ xs.isEmpty
  | .list xs => ¬ xs.isEmpty

/-- Python iteration, as used by `list(x)`: tuples and lists yield their
elements, a string yields its one-character substrings, anything else in
`PyVal` raises `TypeError`. -/
def pyIter : PyVal → Except PyErr (List PyVal)
  | .tuple xs => .ok xs
  | .list xs => .ok xs
  | .str s => .ok (s.toList.map fun c => .str (String.singleton c))
  | .none => .error (.typeError "NoneType object is not iterable")
  | .int _ => .error (.typeError "int object is not iterable")
  | .bool _ => .error (.typeError "bool object is not iterable")

/-- Embedding of the expression `list(input_shape) if input_shape else None`
that every constructor in the file applies to its `input_shape` argument. -/
def normShape (input_shape : PyVal) : Except PyErr PyVal :=
  if pyTruthy input_shape then (pyIter input_shape).map PyVal.list
  else .ok .none

/-- Python `len(x)`: defined on strings, tuples and lists; raises
`TypeError` on the other `PyVal` values. -/
def pyLen : PyVal → Except PyErr Nat
  | .tuple xs => .ok xs.length
  | .list xs => .ok xs.length
  | .str s => .ok s.length
  | .none => .error (.typeError "object of type NoneType has no len()")
  | .int _ => .error (.typeError "object of type int has no len()")
  | .bool _ => .error (.typeError "object of type bool has no len()")

/-- Python subscripting `x[i]` for a natural index, on the sized values. -/
def pyGetItem : PyVal → Nat → Except PyErr PyVal
  | .tuple xs, i =>
    match xs.get? i with
    | some v => .ok v
    | Option.none => .error (.indexError "tuple index out of range")
  | .list xs, i =>
    match xs.get? i with
    | some v => .ok v
    | Option.none => .error (.indexError "list index out of range")
  | .str s, i =>
    match s.toList.get? i with
    | some c => .ok (.str (String.singleton c))
    | Option.none => .error (.indexError "string index out of range")
  | .none, _ => .error (.typeError "NoneType object is not subscriptable")
  | .int _, _ => .error (.typeError "int object is not subscriptable")
  | .bool _, _ => .error (.typeError "bool object is not subscriptable")

/-- Python `isinstance(x, int)`; note that `bool` is a subclass of `int`
in Python, so booleans also satisfy it. -/
def pyIsInstInt : PyVal → Bool
  | .int _ => true
  | .bool _ => true
  | _ => false

/-- One invocation of the base collaborator `ZooKeras2Layer.__init__`:
its positional arguments, in order, and the passed-through keyword
arguments. -/
structure Call where
  pos : List PyVal
  kwargs : List (String × PyVal)

/-- Embedding of `Conv1D.__init__`.  The result is the trace of
collaborator invocations the constructor performs (an `Except.error`
meaning the constructor raised instead of completing). -/
def Conv1D_init (filters kernel_size strides padding activation use_bias
    kernel_initializer bias_initializer kernel_regularizer bias_regularizer
    input_shape : PyVal) (kwargs : List (String × PyVal)) :
    Except PyErr (List Call) := do
  let ish ← normShape input_shape
  pure [⟨[.none, filters, kernel_size, strides, padding, activation, use_bias,
          kernel_initializer, bias_initializer, kernel_regularizer,
          bias_regularizer, ish], kwargs⟩]

/-- Embedding of `Cropping1D.__init__`. -/
def Cropping1D_init (cropping input_shape : PyVal)
    (kwargs : List (String × PyVal)) : Except PyErr (List Call) := do
  let ish ← normShape input_shape
  pure [⟨[.none, cropping, ish], kwargs⟩]

/-- Embedding of `ZeroPadding1D.__init__`: `if isinstance(padding, int):
padding = (padding, padding)`, then the single `super().__init__` call. -/
def ZeroPadding1D_init (padding input_shape : PyVal)
    (kwargs : List (String × PyVal)) : Except PyErr (List Call) := do
  let padding := if pyIsInstInt padding then PyVal.tuple [padding, padding]
    else padding
  let ish ← normShape input_shape
  pure [⟨[.none, padding, ish], kwargs⟩]

/-- Embedding of `ZeroPadding2D.__init__`: `if len(padding) == 2: padding =
(padding[0], padding[0], padding[1], padding[1])`, then the single
`super().__init__` call. -/
def ZeroPadding2D_init (padding data_format input_shape : PyVal)
    (kwargs : List (String × PyVal)) : Except PyErr (List Call) := do
  let n ← pyLen padding
  let padding ←
    if n = 2 then do
      let a ← pyGetItem padding 0
      let b ← pyGetItem padding 1
      pure (PyVal.tuple [a, a, b, b])
    else pure padding
  let ish ← normShape input_shape
  pure [⟨[.none, padding, data_format, ish], kwargs⟩]

/-- The caller's store of already-constructed layer-configuration records,
in construction order.  The records are owned by the caller; instantiating
one of the wrappers appends the record its single collaborator call builds
and touches nothing else, which the following `run` functions make
explicit. -/
abbrev World := List Call

/-- Instantiating `Conv1D` against a store of existing records. -/
def runConv1D (w : World) (filters kernel_size strides padding activation
    use_bias kernel_initializer bias_initializer kernel_regularizer
    bias_regularizer input_shape : PyVal) (kwargs : List (String × PyVal)) :
    Except PyErr World :=
  (Conv1D_init filters kernel_size strides padding activation use_bias
    kernel_initializer bias_initializer kernel_regularizer bias_regularizer
    input_shape kwargs).map (fun cs => w ++ cs)

/-- Instantiating `Cropping1D` against a store of existing records. -/
def runCropping1D (w : World) (cropping input_shape : PyVal)
    (kwargs : List (String × PyVal)) : Except PyErr World :=
  (Cropping1D_init cropping input_shape kwargs).map (fun cs => w ++ cs)

/-- Instantiating `ZeroPadding1D` against a store of existing records. -/
def runZeroPadding1D (w : World) (padding input_shape : PyVal)
    (kwargs : List (String × PyVal)) : Except PyErr World :=
  (ZeroPadding1D_init padding input_shape kwargs).map (fun cs => w ++ cs)

/-- Instantiating `ZeroPadding2D` against a store of existing records. -/
def runZeroPadding2D (w : World) (padding data_format input_shape : PyVal)
    (kwargs : List (String × PyVal)) : Except PyErr World :=
  (ZeroPadding2D_init padding data_format input_shape kwargs).map
    (fun cs => w ++ cs)

/-- C2: constructing `ZeroPadding2D` with `padding=(a, b)` forwards the
padding argument to the collaborator as the 4-tuple `(a, a, b, b)`. -/
theorem zeroPadding2D_pair_mirrors (a b data_format input_shape : PyVal)
    (kw : List (String × PyVal)) :
    ZeroPadding2D_init (PyVal.tuple [a, b]) data_format input_shape kw =
      (normShape input_shape).map
        (fun s => [⟨[.none, PyVal.tuple [a, a, b, b], data_format, s], kw⟩]) := by
  cases h : normShape input_shape <;>
    simp [ZeroPadding2D_init, pyLen, pyGetItem, h, Except.map, bind, Except.bind, pure, Except.pure]

/-- C10: `Cropping1D` forwards its cropping argument to the collaborator
completely unchanged; in particular a scalar integer cropping value is not
expanded to a pair, unlike the padding of `ZeroPadding1D`. -/
theorem cropping1D_forwards_unchanged (cropping input_shape : PyVal)
    (kw : List (String × PyVal)) (n : Int) :
    Cropping1D_init cropping input_shape kw =
      (normShape input_shape).map (fun s => [⟨[.none, cropping, s], kw⟩]) ∧
    Cropping1D_init (PyVal.int n) PyVal.none kw =
      .ok [⟨[.none, PyVal.int n, .none], kw⟩] ∧
    ZeroPadding1D_init (PyVal.int n) PyVal.none kw =
      .ok [⟨[.none, PyVal.tuple [PyVal.int n, PyVal.int n], .none], kw⟩] := by
  refine ⟨?_, rfl, rfl⟩
  cases h : normShape input_shape <;>
    simp [Cropping1D_init, h, Except.map, bind, Except.bind, pure, Except.pure]

/-- C1: `ZeroPadding1D` with an integer padding `P` forwards the pair
`(P, P)` to the collaborator; a padding that is not an int (in the Python
sense of `isinstance(padding, int)`) is forwarded unchanged. -/
theorem zeroPadding1D_int_expands (p input_shape : PyVal)
    (kw : List (String × PyVal)) :
    (∀ n : Int, p = PyVal.int n →
      ZeroPadding1D_init p input_shape kw =
        (normShape input_shape).map
          (fun s => [⟨[.none, PyVal.tuple [PyVal.int n, PyVal.int n], s], kw⟩])) ∧
    (pyIsInstInt p = false →
      ZeroPadding1D_init p input_shape kw =
        (normShape input_shape).map (fun s => [⟨[.none, p, s], kw⟩])) := by
  constructor
  · rintro n rfl
    cases h : normShape input_shape <;>
      simp [ZeroPadding1D_init, pyIsInstInt, h, Except.map, bind, Except.bind,
        pure, Except.pure]
  · intro hp
    cases h : normShape input_shape <;>
      simp [ZeroPadding1D_init, hp, h, Except.map, bind, Except.bind,
        pure, Except.pure]

/-- Witness for C1 at concrete inputs: padding `3` becomes `(3, 3)` and a
string padding is forwarded unchanged. -/
theorem zeroPadding1D_int_expands_witness :
    ZeroPadding1D_init (PyVal.int 3) PyVal.none [] =
      Except.ok [⟨[PyVal.none, PyVal.tuple [PyVal.int 3, PyVal.int 3],
        PyVal.none], []⟩] ∧
    ZeroPadding1D_init (PyVal.str "ab") PyVal.none [] =
      Except.ok [⟨[PyVal.none, PyVal.str "ab", PyVal.none], []⟩] :=
  ⟨((zeroPadding1D_int_expands (PyVal.int 3) PyVal.none []).1 3 rfl).trans rfl,
   ((zeroPadding1D_int_expands (PyVal.str "ab") PyVal.none []).2 rfl).trans rfl⟩

/-- Helper: whenever `ZeroPadding2D.__init__` completes, it performed the
single collaborator call `(None, padding_normalized, data_format, shape)`
with the keyword arguments passed through. -/
theorem zeroPadding2D_ok_shape (padding data_format input_shape : PyVal)
    (kw : List (String × PyVal)) (r : List Call)
    (h : ZeroPadding2D_init padding data_format input_shape kw = Except.ok r) :
    ∃ p s, normShape input_shape = Except.ok s ∧
      r = [⟨[.none, p, data_format, s], kw⟩] := by
  unfold ZeroPadding2D_init at h
  cases hl : pyLen padding with
  | error e => rw [hl] at h; simp [bind, Except.bind] at h
  | ok n =>
    rw [hl] at h
    simp only [bind, Except.bind] at h
    by_cases hn : n = 2
    · subst hn
      rw [if_pos rfl] at h
      cases h0 : pyGetItem padding 0 with
      | error e => rw [h0] at h; simp at h
      | ok a =>
        rw [h0] at h
        simp only [Except.bind] at h
        cases h1 : pyGetItem padding 1 with
        | error e => rw [h1] at h; simp at h
        | ok b =>
          rw [h1] at h
          simp only [Except.bind, pure, Except.pure] at h
          cases hs : normShape input_shape with
          | error e => rw [hs] at h; simp at h
          | ok s =>
            rw [hs] at h
            simp only [Except.ok.injEq] at h
            exact ⟨PyVal.tuple [a, a, b, b], s, rfl, h.symm⟩
    · rw [if_neg hn] at h
      simp only [pure, Except.pure, Except.bind] at h
      cases hs : normShape input_shape with
      | error e => rw [hs] at h; simp at h
      | ok s =>
        rw [hs] at h
        simp only [Except.ok.injEq] at h
        exact ⟨padding, s, rfl, h.symm⟩

/-- C3: every constructor calls the collaborator with the fixed positional
order: the discriminator placeholder `None` first, then the kind-specific
parameters in declared order, then the normalized input shape, with the
remaining keyword options passed through unchanged. -/
theorem constructors_positional_order (filters kernel_size strides padding
    activation use_bias kernel_initializer bias_initializer kernel_regularizer
    bias_regularizer cropping pad1 pad2 data_format input_shape : PyVal)
    (kw : List (String × PyVal)) :
    Conv1D_init filters kernel_size strides padding activation use_bias
        kernel_initializer bias_initializer kernel_regularizer bias_regularizer
        input_shape kw =
      (normShape input_shape).map
        (fun s => [⟨[.none, filters, kernel_size, strides, padding, activation,
          use_bias, kernel_initializer, bias_initializer, kernel_regularizer,
          bias_regularizer, s], kw⟩]) ∧
    Cropping1D_init cropping input_shape kw =
      (normShape input_shape).map (fun s => [⟨[.none, cropping, s], kw⟩]) ∧
    ZeroPadding1D_init pad1 input_shape kw =
      (normShape input_shape).map
        (fun s => [⟨[.none,
          if pyIsInstInt pad1 then PyVal.tuple [pad1, pad1] else pad1,
          s], kw⟩]) ∧
    (∀ r, ZeroPadding2D_init pad2 data_format input_shape kw = Except.ok r →
      ∃ p s, normShape input_shape = Except.ok s ∧
        r = [⟨[.none, p, data_format, s], kw⟩]) := by
  refine ⟨?_, ?_, ?_, fun r h => zeroPadding2D_ok_shape _ _ _ _ _ h⟩ <;>
    cases h : normShape input_shape <;>
      simp [Conv1D_init, Cropping1D_init, ZeroPadding1D_init, h,
        Except.map, bind, Except.bind, pure, Except.pure]

/-- Witness for C3: the `ZeroPadding2D` success case at a concrete input. -/
theorem constructors_positional_order_witness :
    ∃ p s, normShape PyVal.none = Except.ok s ∧
      [(⟨[PyVal.none, PyVal.tuple [PyVal.int 1, PyVal.int 1, PyVal.int 2,
            PyVal.int 2], PyVal.str "channels_first", PyVal.none], []⟩ : Call)] =
        [⟨[PyVal.none, p, PyVal.str "channels_first", s], []⟩] :=
  (constructors_positional_order PyVal.none PyVal.none PyVal.none PyVal.none
    PyVal.none PyVal.none PyVal.none PyVal.none PyVal.none PyVal.none
    PyVal.none PyVal.none (PyVal.tuple [PyVal.int 1, PyVal.int 2])
    (PyVal.str "channels_first") PyVal.none []).2.2.2 _ rfl

/-- The shape normalization on a nonempty tuple yields the ordered list of
its elements. -/
theorem normShape_tuple_ne_nil (xs : List PyVal) (hxs : xs ≠ []) :
    normShape (PyVal.tuple xs) = Except.ok (PyVal.list xs) := by
  cases xs with
  | nil => exact absurd rfl hxs
  | cons a as => rfl

/-- C4 counterexample: with the empty tuple as `input_shape`, the
constructor forwards `None` to the collaborator, not the ordered list `[]`
of the elements of the supplied sequence. -/
theorem shape_empty_counterexample :
    Cropping1D_init (PyVal.tuple [PyVal.int 1, PyVal.int 1])
        (PyVal.tuple []) [] =
      Except.ok [⟨[PyVal.none, PyVal.tuple [PyVal.int 1, PyVal.int 1],
        PyVal.none], []⟩] ∧
    ¬ Cropping1D_init (PyVal.tuple [PyVal.int 1, PyVal.int 1])
        (PyVal.tuple []) [] =
      Except.ok [⟨[PyVal.none, PyVal.tuple [PyVal.int 1, PyVal.int 1],
        PyVal.list []], []⟩] := by
  refine ⟨rfl, fun h => ?_⟩
  have h2 : (Except.ok [(⟨[PyVal.none, PyVal.tuple [PyVal.int 1, PyVal.int 1],
      PyVal.none], []⟩ : Call)] : Except PyErr (List Call)) =
      Except.ok [⟨[PyVal.none, PyVal.tuple [PyVal.int 1, PyVal.int 1],
        PyVal.list []], []⟩] := h
  simp [Call.mk.injEq] at h2

/-- C4 amended: in every constructor, a supplied NONEMPTY input_shape
sequence is converted to the ordered list of its elements before being
forwarded to the collaborator; an omitted input_shape (None) — and, per
C8, an empty sequence — is forwarded as None. -/
theorem shape_sequence_normalization (filters kernel_size strides padding
    activation use_bias kernel_initializer bias_initializer kernel_regularizer
    bias_regularizer cropping pad1 pad2 data_format : PyVal)
    (xs : List PyVal) (kw : List (String × PyVal)) (hxs : xs ≠ []) :
    Conv1D_init filters kernel_size strides padding activation use_bias
        kernel_initializer bias_initializer kernel_regularizer bias_regularizer
        (PyVal.tuple xs) kw =
      Except.ok [⟨[.none, filters, kernel_size, strides, padding, activation,
        use_bias, kernel_initializer, bias_initializer, kernel_regularizer,
        bias_regularizer, PyVal.list xs], kw⟩] ∧
    Conv1D_init filters kernel_size strides padding activation use_bias
        kernel_initializer bias_initializer kernel_regularizer bias_regularizer
        PyVal.none kw =
      Except.ok [⟨[.none, filters, kernel_size, strides, padding, activation,
        use_bias, kernel_initializer, bias_initializer, kernel_regularizer,
        bias_regularizer, PyVal.none], kw⟩] ∧
    Cropping1D_init cropping (PyVal.tuple xs) kw =
      Except.ok [⟨[.none, cropping, PyVal.list xs], kw⟩] ∧
    Cropping1D_init cropping PyVal.none kw =
      Except.ok [⟨[.none, cropping, PyVal.none], kw⟩] ∧
    ZeroPadding1D_init pad1 (PyVal.tuple xs) kw =
      Except.ok [⟨[.none,
        if pyIsInstInt pad1 then PyVal.tuple [pad1, pad1] else pad1,
        PyVal.list xs], kw⟩] ∧
    ZeroPadding1D_init pad1 PyVal.none kw =
      Except.ok [⟨[.none,
        if pyIsInstInt pad1 then PyVal.tuple [pad1, pad1] else pad1,
        PyVal.none], kw⟩] ∧
    (∀ r, ZeroPadding2D_init pad2 data_format (PyVal.tuple xs) kw =
        Except.ok r →
      ∃ p, r = [⟨[.none, p, data_format, PyVal.list xs], kw⟩]) ∧
    (∀ r, ZeroPadding2D_init pad2 data_format PyVal.none kw = Except.ok r →
      ∃ p, r = [⟨[.none, p, data_format, PyVal.none], kw⟩]) := by
  obtain ⟨a, as, rfl⟩ : ∃ a as, xs = a :: as := by
    cases xs with
    | nil => exact absurd rfl hxs
    | cons a as => exact ⟨a, as, rfl⟩
  refine ⟨rfl, rfl, rfl, rfl, rfl, rfl, fun r h => ?_, fun r h => ?_⟩
  · obtain ⟨p, s, hs, hr⟩ := zeroPadding2D_ok_shape _ _ _ _ _ h
    rw [normShape_tuple_ne_nil _ (List.cons_ne_nil a as)] at hs
    injection hs with hs2
    rw [← hs2] at hr
    exact ⟨p, hr⟩
  · obtain ⟨p, s, hs, hr⟩ := zeroPadding2D_ok_shape _ _ _ _ _ h
    have hs2 : (Except.ok PyVal.none : Except PyErr PyVal) = Except.ok s := hs
    injection hs2 with hs3
    rw [← hs3] at hr
    exact ⟨p, hr⟩

/-- Witness for C4 amended, at the doc-string example
`Conv1D(12, 4, input_shape=(3, 16))`. -/
theorem shape_sequence_normalization_witness :
    Conv1D_init (PyVal.int 12) (PyVal.int 4) (PyVal.int 1) (PyVal.str "valid")
      PyVal.none (PyVal.bool true) (PyVal.str "glorot_uniform")
      (PyVal.str "zero") PyVal.none PyVal.none
      (PyVal.tuple [PyVal.int 3, PyVal.int 16]) [] =
    Except.ok [⟨[PyVal.none, PyVal.int 12, PyVal.int 4, PyVal.int 1,
      PyVal.str "valid", PyVal.none, PyVal.bool true,
      PyVal.str "glorot_uniform", PyVal.str "zero", PyVal.none, PyVal.none,
      PyVal.list [PyVal.int 3, PyVal.int 16]], []⟩] :=
  (shape_sequence_normalization (PyVal.int 12) (PyVal.int 4) (PyVal.int 1)
    (PyVal.str "valid") PyVal.none (PyVal.bool true)
    (PyVal.str "glorot_uniform") (PyVal.str "zero") PyVal.none PyVal.none
    PyVal.none PyVal.none PyVal.none PyVal.none
    [PyVal.int 3, PyVal.int 16] [] (List.cons_ne_nil _ _)).1

/-- C5: no constructor catches, translates or suppresses an error: the
error raised by the padding-length inspection or by the shape
normalization is exactly the error the constructor produces; in
particular `ZeroPadding2D` with a bare int padding propagates the
`TypeError` of `len`. -/
theorem errors_propagate (filters kernel_size strides padding activation
    use_bias kernel_initializer bias_initializer kernel_regularizer
    bias_regularizer cropping pad1 pad2 data_format input_shape : PyVal)
    (kw : List (String × PyVal)) (e : PyErr) :
    (pyLen pad2 = Except.error e →
      ZeroPadding2D_init pad2 data_format input_shape kw = Except.error e) ∧
    (normShape input_shape = Except.error e →
      Conv1D_init filters kernel_size strides padding activation use_bias
        kernel_initializer bias_initializer kernel_regularizer bias_regularizer
        input_shape kw = Except.error e ∧
      Cropping1D_init cropping input_shape kw = Except.error e ∧
      ZeroPadding1D_init pad1 input_shape kw = Except.error e ∧
      ZeroPadding2D_init (PyVal.list [pad2]) data_format input_shape kw =
        Except.error e) ∧
    ZeroPadding2D_init (PyVal.int 1) data_format input_shape kw =
      Except.error (PyErr.typeError "object of type int has no len()") := by
  refine ⟨fun h => ?_, fun h => ⟨?_, ?_, ?_, ?_⟩, rfl⟩
  · simp [ZeroPadding2D_init, h, bind, Except.bind]
  · simp [Conv1D_init, h, bind, Except.bind]
  · simp [Cropping1D_init, h, bind, Except.bind]
  · simp [ZeroPadding1D_init, h, bind, Except.bind]
  · simp [ZeroPadding2D_init, pyLen, h, bind, Except.bind, pure, Except.pure]

/-- Witness for C5: a bare int padding to `ZeroPadding2D` propagates the
`TypeError` of `len`, and a truthy non-iterable `input_shape` propagates
the `TypeError` of `list(...)` out of `Conv1D`. -/
theorem errors_propagate_witness :
    ZeroPadding2D_init (PyVal.int 1) (PyVal.str "channels_first")
        PyVal.none [] =
      Except.error (PyErr.typeError "object of type int has no len()") ∧
    Conv1D_init PyVal.none PyVal.none PyVal.none PyVal.none PyVal.none
        PyVal.none PyVal.none PyVal.none PyVal.none PyVal.none
        (PyVal.int 5) [] =
      Except.error (PyErr.typeError "int object is not iterable") :=
  ⟨(errors_propagate PyVal.none PyVal.none PyVal.none PyVal.none PyVal.none
      PyVal.none PyVal.none PyVal.none PyVal.none PyVal.none PyVal.none
      PyVal.none (PyVal.int 1) (PyVal.str "channels_first") PyVal.none []
      (PyErr.typeError "object of type int has no len()")).1 rfl,
   ((errors_propagate PyVal.none PyVal.none PyVal.none PyVal.none PyVal.none
      PyVal.none PyVal.none PyVal.none PyVal.none PyVal.none PyVal.none
      PyVal.none PyVal.none PyVal.none (PyVal.int 5) []
      (PyErr.typeError "int object is not iterable")).2.1 rfl).1⟩

/-- C6: each constructor returns no value and performs exactly one
invocation of the layer-construction collaborator per instantiation: every
successful run produces a trace of exactly one collaborator call. -/
theorem single_collaborator_call (filters kernel_size strides padding
    activation use_bias kernel_initializer bias_initializer kernel_regularizer
    bias_regularizer cropping pad1 pad2 data_format input_shape : PyVal)
    (kw : List (String × PyVal)) (r : List Call) :
    (Conv1D_init filters kernel_size strides padding activation use_bias
        kernel_initializer bias_initializer kernel_regularizer bias_regularizer
        input_shape kw = Except.ok r → r.length = 1) ∧
    (Cropping1D_init cropping input_shape kw = Except.ok r →
      r.length = 1) ∧
    (ZeroPadding1D_init pad1 input_shape kw = Except.ok r → r.length = 1) ∧
    (ZeroPadding2D_init pad2 data_format input_shape kw = Except.ok r →
      r.length = 1) := by
  refine ⟨fun h => ?_, fun h => ?_, fun h => ?_, fun h => ?_⟩
  · unfold Conv1D_init at h
    cases hs : normShape input_shape with
    | error e => rw [hs] at h; simp [bind, Except.bind] at h
    | ok s =>
      rw [hs] at h
      simp only [bind, Except.bind, pure, Except.pure, Except.ok.injEq] at h
      rw [← h]
      rfl
  · unfold Cropping1D_init at h
    cases hs : normShape input_shape with
    | error e => rw [hs] at h; simp [bind, Except.bind] at h
    | ok s =>
      rw [hs] at h
      simp only [bind, Except.bind, pure, Except.pure, Except.ok.injEq] at h
      rw [← h]
      rfl
  · unfold ZeroPadding1D_init at h
    cases hs : normShape input_shape with
    | error e => rw [hs] at h; simp [bind, Except.bind] at h
    | ok s =>
      rw [hs] at h
      simp only [bind, Except.bind, pure, Except.pure, Except.ok.injEq] at h
      rw [← h]
      rfl
  · obtain ⟨p, s, hs, hr⟩ := zeroPadding2D_ok_shape _ _ _ _ _ h
    rw [hr]
    rfl

/-- Witness for C6: a concrete successful `Cropping1D` instantiation has a
trace of exactly one collaborator call. -/
theorem single_collaborator_call_witness :
    ([(⟨[PyVal.none, PyVal.tuple [PyVal.int 1, PyVal.int 2], PyVal.none],
      []⟩ : Call)]).length = 1 :=
  (single_collaborator_call PyVal.none PyVal.none PyVal.none PyVal.none
    PyVal.none PyVal.none PyVal.none PyVal.none PyVal.none PyVal.none
    (PyVal.tuple [PyVal.int 1, PyVal.int 2]) PyVal.none PyVal.none PyVal.none
    PyVal.none []
    [⟨[PyVal.none, PyVal.tuple [PyVal.int 1, PyVal.int 2], PyVal.none],
      []⟩]).2.1 rfl

/-- C7: a layer-configuration record, once constructed, is immutable: an
instantiation of any of the four wrappers only appends the record it
builds to the store of existing records, so every record already in the
store is preserved unchanged, fields included. -/
theorem constructed_records_immutable (w : World) (filters kernel_size
    strides padding activation use_bias kernel_initializer bias_initializer
    kernel_regularizer bias_regularizer cropping pad1 pad2 data_format
    input_shape : PyVal) (kw : List (String × PyVal)) (w' : World) :
    (runConv1D w filters kernel_size strides padding activation use_bias
        kernel_initializer bias_initializer kernel_regularizer
        bias_regularizer input_shape kw = Except.ok w' →
      w'.take w.length = w) ∧
    (runCropping1D w cropping input_shape kw = Except.ok w' →
      w'.take w.length = w) ∧
    (runZeroPadding1D w pad1 input_shape kw = Except.ok w' →
      w'.take w.length = w) ∧
    (runZeroPadding2D w pad2 data_format input_shape kw = Except.ok w' →
      w'.take w.length = w) := by
  refine ⟨fun h => ?_, fun h => ?_, fun h => ?_, fun h => ?_⟩
  · unfold runConv1D at h
    cases hi : Conv1D_init filters kernel_size strides padding activation
        use_bias kernel_initializer bias_initializer kernel_regularizer
        bias_regularizer input_shape kw with
    | error e => rw [hi] at h; simp [Except.map] at h
    | ok cs =>
      rw [hi] at h
      simp only [Except.map, Except.ok.injEq] at h
      rw [← h]
      exact List.take_left _ _
  · unfold runCropping1D at h
    cases hi : Cropping1D_init cropping input_shape kw with
    | error e => rw [hi] at h; simp [Except.map] at h
    | ok cs =>
      rw [hi] at h
      simp only [Except.map, Except.ok.injEq] at h
      rw [← h]
      exact List.take_left _ _
  · unfold runZeroPadding1D at h
    cases hi : ZeroPadding1D_init pad1 input_shape kw with
    | error e => rw [hi] at h; simp [Except.map] at h
    | ok cs =>
      rw [hi] at h
      simp only [Except.map, Except.ok.injEq] at h
      rw [← h]
      exact List.take_left _ _
  · unfold runZeroPadding2D at h
    cases hi : ZeroPadding2D_init pad2 data_format input_shape kw with
    | error e => rw [hi] at h; simp [Except.map] at h
    | ok cs =>
      rw [hi] at h
      simp only [Except.map, Except.ok.injEq] at h
      rw [← h]
      exact List.take_left _ _

/-- Witness for C7: a `Cropping1D` instantiation on a one-record store
leaves that record intact. -/
theorem constructed_records_immutable_witness :
    ([(⟨[], []⟩ : Call),
      ⟨[PyVal.none, PyVal.int 1, PyVal.none], []⟩] : World).take 1 =
      [(⟨[], []⟩ : Call)] :=
  (constructed_records_immutable [⟨[], []⟩] PyVal.none PyVal.none PyVal.none
    PyVal.none PyVal.none PyVal.none PyVal.none PyVal.none PyVal.none
    PyVal.none (PyVal.int 1) PyVal.none PyVal.none PyVal.none PyVal.none []
    [⟨[], []⟩, ⟨[PyVal.none, PyVal.int 1, PyVal.none], []⟩]).2.1 rfl

/-- C8: in every constructor, an empty `input_shape` sequence is falsy, so
it is forwarded as `None`, indistinguishably from omitting `input_shape`
entirely. -/
theorem empty_shape_like_none (filters kernel_size strides padding
    activation use_bias kernel_initializer bias_initializer kernel_regularizer
    bias_regularizer cropping pad1 pad2 data_format : PyVal)
    (kw : List (String × PyVal)) :
    Conv1D_init filters kernel_size strides padding activation use_bias
        kernel_initializer bias_initializer kernel_regularizer bias_regularizer
        (PyVal.tuple []) kw =
      Conv1D_init filters kernel_size strides padding activation use_bias
        kernel_initializer bias_initializer kernel_regularizer bias_regularizer
        PyVal.none kw ∧
    Cropping1D_init cropping (PyVal.tuple []) kw =
      Cropping1D_init cropping PyVal.none kw ∧
    ZeroPadding1D_init pad1 (PyVal.tuple []) kw =
      ZeroPadding1D_init pad1 PyVal.none kw ∧
    ZeroPadding2D_init pad2 data_format (PyVal.tuple []) kw =
      ZeroPadding2D_init pad2 data_format PyVal.none kw ∧
    Cropping1D_init cropping (PyVal.tuple []) kw =
      Except.ok [⟨[.none, cropping, PyVal.none], kw⟩] :=
  ⟨rfl, rfl, rfl, rfl, rfl⟩

/-- C9: `ZeroPadding2D` forwards every sized padding value whose length is
not 2 unchanged to the collaborator, with no length validation. -/
theorem zeroPadding2D_len_ne2_unchanged (pad2 data_format input_shape : PyVal)
    (kw : List (String × PyVal)) (n : Nat) (hl : pyLen pad2 = Except.ok n)
    (hn : n ≠ 2) :
    ZeroPadding2D_init pad2 data_format input_shape kw =
      (normShape input_shape).map
        (fun s => [⟨[.none, pad2, data_format, s], kw⟩]) := by
  unfold ZeroPadding2D_init
  rw [hl]
  simp only [bind, Except.bind]
  rw [if_neg hn]
  cases hs : normShape input_shape <;>
    simp [hs, Except.map, pure, Except.pure, Except.bind]

/-- Witness for C9: a length-4 tuple and a length-3 tuple are both passed
as-is. -/
theorem zeroPadding2D_len_ne2_unchanged_witness :
    ZeroPadding2D_init
        (PyVal.tuple [PyVal.int 1, PyVal.int 2, PyVal.int 3, PyVal.int 4])
        (PyVal.str "channels_first") PyVal.none [] =
      Except.ok [⟨[PyVal.none,
        PyVal.tuple [PyVal.int 1, PyVal.int 2, PyVal.int 3, PyVal.int 4],
        PyVal.str "channels_first", PyVal.none], []⟩] ∧
    ZeroPadding2D_init (PyVal.tuple [PyVal.int 1, PyVal.int 2, PyVal.int 3])
        (PyVal.str "channels_last") PyVal.none [] =
      Except.ok [⟨[PyVal.none,
        PyVal.tuple [PyVal.int 1, PyVal.int 2, PyVal.int 3],
        PyVal.str "channels_last", PyVal.none], []⟩] :=
  ⟨(zeroPadding2D_len_ne2_unchanged
      (PyVal.tuple [PyVal.int 1, PyVal.int 2, PyVal.int 3, PyVal.int 4])
      (PyVal.str "channels_first") PyVal.none [] 4 rfl
      (by decide)).trans rfl,
   (zeroPadding2D_len_ne2_unchanged
      (PyVal.tuple [PyVal.int 1, PyVal.int 2, PyVal.int 3])
      (PyVal.str "channels_last") PyVal.none [] 3 rfl
      (by decide)).trans rfl⟩
